import Mathlib

/-!
# Startup and shutdown orchestration of `examples/surgemq/surgemq.go`

The Go program is embedded as a function from the flag variables and the
outcomes of the external calls to the sequence of calls the program makes.

* `Flags` : the package-level flag variables (source lines 31-44).
* `Env`   : one outcome for every external call that `main` or a goroutine makes.
* `main`  : lines 64-133, producing the call sequence of the main goroutine.
* `signalWatcher` : the closure of lines 88-101 after `sig := <-sigchan`.
* `SigState`, `sigStep`, `sigExec` : the buffered channel `sigchan`, the runtime
  delivering signals into it and the watcher goroutine, as a step function.
-/

namespace Surgemq

/-! ## Data model -/

/-- A Go `error` value, identified by the text of `err.Error()`. -/
structure GoError where
  msg : String
  deriving DecidableEq, Repr

/-- An open `*os.File`; a nil pointer is `none : Option File`. -/
structure File where
  fd : Nat
  deriving DecidableEq, Repr

/-- The `*server.Type` handle returned by `server.New`. -/
structure Server where
  id : Nat
  deriving DecidableEq, Repr

/-- The authentication manager returned by `auth.NewManager`. -/
structure AuthManager where
  id : Nat
  deriving DecidableEq, Repr

/-- The two signals registered with `signal.Notify` (line 87). -/
inductive Signal where
  | SIGINT
  | SIGTERM
  deriving DecidableEq, Repr

/-- Text printed for a signal by the `%v` verb (`Signal.String()`). -/
def Signal.toText : Signal → String
  | .SIGINT => "interrupt"
  | .SIGTERM => "terminated"

/-- The package-level flag variables, lines 31-44, as left by `init`. -/
structure Flags where
  keepAlive : Int
  connectTimeout : Int
  ackTimeout : Int
  timeoutRetries : Int
  authenticator : String
  sessionsProvider : String
  topicsProvider : String
  cpuprofile : String
  wsAddr : String
  wssAddr : String
  wssCertPath : String
  wssKeyPath : String
  deriving DecidableEq, Repr

/-- The fields of `server.Config` that `main` sets (lines 67-73). -/
structure ServerConfig where
  KeepAlive : Int
  ConnectTimeout : Int
  AckTimeout : Int
  TimeoutRetries : Int
  TopicsProvider : String
  deriving DecidableEq, Repr

/-- The `server.Listener` value built at lines 122-127. -/
structure Listener where
  Scheme : String
  Host : String
  Port : Nat
  AuthManager : AuthManager
  deriving DecidableEq, Repr

/-- How a blocking `svr.ListenAndServe` call ends: it either never returns
    (the process is ended from elsewhere) or returns an `error` (possibly nil). -/
inductive ServeResult where
  | blocks
  | returns (err : Option GoError)
  deriving DecidableEq, Repr

/-- The calls made by the program. A `go...` constructor is the `go` statement
    itself; the call made inside the new goroutine has its own constructor. -/
inductive Call where
  | serverNew (c : ServerConfig)
  | osCreate (name : String)
  | logFatal (err : GoError)
  | startCPUProfile (f : File)
  | signalNotify (sigs : List Signal)
  | goSignalWatcher
  | addWebSocketHandler (urlPattern : String) (uri : String)
  | goListenAndServeWebSocket (addr : String)
  | goListenAndServeWebSocketSecure (addr : String) (cert : String) (key : String)
  | listenAndServeWebSocket (addr : String)
  | listenAndServeWebSocketSecure (addr : String) (cert : String) (key : String)
  | authNewManager (provider : String)
  | logErrorf (text : String)
  | listenAndServe (svr : Server) (l : Listener)
  | stopCPUProfile
  | fileClose (f : File)
  | svrClose (svr : Server)
  | osExit (code : Int)
  deriving DecidableEq, Repr

/-- One call together with the `error` it returned (`none` is a nil error, and
    also stands for calls that return no error value or do not return). -/
structure Event where
  call : Call
  err : Option GoError
  deriving DecidableEq, Repr

/-- The outcome of every external call, as a function of its arguments. -/
structure Env where
  serverNew : ServerConfig → Server × Option GoError
  osCreate : String → Except GoError File
  startCPUProfile : File → Option GoError
  addWebSocketHandler : String → String → Option GoError
  listenAndServeWebSocket : String → Option GoError
  listenAndServeWebSocketSecure : String → String → String → Option GoError
  authNewManager : String → Except GoError AuthManager
  listenAndServe : Server → Listener → ServeResult
  fileClose : File → Option GoError
  svrClose : Server → Option GoError

/-- How the main goroutine ends: `main` returns, the process is ended by
    `os.Exit`, or `main` stays blocked inside `svr.ListenAndServe`. -/
inductive Status where
  | returned
  | exited (code : Int)
  | blocked
  deriving DecidableEq, Repr

/-- What a run of `main` leaves behind: the calls it made in order, how it
    ended, and the values of the locals `f` and `svr` that the signal closure
    captures. -/
structure Run where
  trace : List Event
  status : Status
  f : Option File
  svr : Server
  deriving DecidableEq, Repr

/-! ## The program -/

/-- Go `len` of a string: its length in bytes. -/
def len (s : String) : Nat := s.utf8ByteSize

/-- The function `main`, lines 64-133. -/
def main (fl : Flags) (env : Env) : Run :=
  -- lines 67-73: svr, _ := server.New(server.Config{...})
  let scfg : ServerConfig :=
    { KeepAlive := fl.keepAlive
      ConnectTimeout := fl.connectTimeout
      AckTimeout := fl.ackTimeout
      TimeoutRetries := fl.timeoutRetries
      TopicsProvider := fl.topicsProvider }
  let svr := (env.serverNew scfg).1
  let t : List Event := [⟨.serverNew scfg, (env.serverNew scfg).2⟩]
  -- lines 77-84: if cpuprofile != "" { f, err = os.Create(cpuprofile) ... }
  let prof : Except GoError (Option File × List Event) :=
    if fl.cpuprofile ≠ "" then
      match env.osCreate fl.cpuprofile with
      | .error err => .error err
      | .ok f =>
        .ok (some f, [⟨.osCreate fl.cpuprofile, none⟩,
                      ⟨.startCPUProfile f, env.startCPUProfile f⟩])
    else .ok (none, [])
  match prof with
  | .error err =>
    -- line 80: log.Fatal(err) prints err and calls os.Exit(1)
    { trace := t ++ [⟨.osCreate fl.cpuprofile, some err⟩, ⟨.logFatal err, none⟩]
      status := .exited 1
      f := none
      svr := svr }
  | .ok (f, tp) =>
    let t := t ++ tp
    -- lines 86-101: sigchan, signal.Notify, go func() { ... }()
    let t := t ++ [⟨.signalNotify [.SIGINT, .SIGTERM], none⟩, ⟨.goSignalWatcher, none⟩]
    -- lines 103-114
    let t :=
      if len fl.wsAddr > 0 ∨ len fl.wssAddr > 0 then
        let addr := "tcp://127.0.0.1:1883"
        let t := t ++ [⟨.addWebSocketHandler "/mqtt" addr,
                        env.addWebSocketHandler "/mqtt" addr⟩]
        let t :=
          if len fl.wsAddr > 0 then
            t ++ [⟨.goListenAndServeWebSocket fl.wsAddr, none⟩]
          else t
        let t :=
          if len fl.wssAddr > 0 ∧ len fl.wssCertPath > 0 ∧ len fl.wssKeyPath > 0 then
            t ++ [⟨.goListenAndServeWebSocketSecure fl.wssAddr fl.wssCertPath fl.wssKeyPath,
                   none⟩]
          else t
        t
      else t
    -- lines 116-120: authMng, err := auth.NewManager("mockSuccess")
    match env.authNewManager "mockSuccess" with
    | .error err =>
      { trace := t ++ [⟨.authNewManager "mockSuccess", some err⟩,
                       ⟨.logErrorf ("Couldn't register *mockSuccess* auth provider: " ++ err.msg),
                        none⟩]
        status := .returned
        f := f
        svr := svr }
    | .ok authMng =>
      -- lines 122-127
      let config : Listener :=
        { Scheme := "tcp", Host := "127.0.0.1", Port := 1883, AuthManager := authMng }
      let t := t ++ [⟨.authNewManager "mockSuccess", none⟩]
      -- lines 129-132: err = svr.ListenAndServe(config)
      match env.listenAndServe svr config with
      | .blocks =>
        { trace := t ++ [⟨.listenAndServe svr config, none⟩]
          status := .blocked
          f := f
          svr := svr }
      | .returns none =>
        { trace := t ++ [⟨.listenAndServe svr config, none⟩]
          status := .returned
          f := f
          svr := svr }
      | .returns (some err) =>
        { trace := t ++ [⟨.listenAndServe svr config, some err⟩,
                         ⟨.logErrorf ("surgemq/main: " ++ err.msg), none⟩]
          status := .returned
          f := f
          svr := svr }

/-- The closure of lines 88-101 once `sig := <-sigchan` has received `sig`;
    `f` and `svr` are the captured locals of `main`. Every returned error is
    dropped (`// nolint: errcheck`). -/
def signalWatcher (env : Env) (svr : Server) (f : Option File) (sig : Signal) : List Event :=
  -- line 90
  let t : List Event := [⟨.logErrorf ("Existing due to trapped signal; " ++ sig.toText), none⟩]
  -- lines 92-96: if f != nil { ... }
  let t :=
    match f with
    | some file =>
      t ++ [⟨.logErrorf "Stopping profile", none⟩,
            ⟨.stopCPUProfile, none⟩,
            ⟨.fileClose file, env.fileClose file⟩]
    | none => t
  -- lines 98-100
  t ++ [⟨.svrClose svr, env.svrClose svr⟩, ⟨.osExit 0, none⟩]

/-- The calls made inside the goroutine that a `go` statement of lines 108 and
    112 starts; the value the call returns is discarded by the `go` statement. -/
def spawned (env : Env) : Call → List Event
  | .goListenAndServeWebSocket addr =>
    [⟨.listenAndServeWebSocket addr, env.listenAndServeWebSocket addr⟩]
  | .goListenAndServeWebSocketSecure addr cert key =>
    [⟨.listenAndServeWebSocketSecure addr cert key,
      env.listenAndServeWebSocketSecure addr cert key⟩]
  | _ => []

/-- Every call of a run without a signal: those of `main` followed by those of
    the secondary-listener goroutines it started. -/
def programEvents (fl : Flags) (env : Env) : List Event :=
  (main fl env).trace ++ ((main fl env).trace.map (fun e => spawned env e.call)).flatten

/-- The environment `env` with the outcomes of the two secondary listeners
    replaced by `ws` and `wss`. -/
def withSecondary (env : Env) (ws : String → Option GoError)
    (wss : String → String → String → Option GoError) : Env :=
  { env with listenAndServeWebSocket := ws, listenAndServeWebSocketSecure := wss }

/-! ## Concrete inputs -/

/-- An environment in which every external call succeeds and the primary
    listener keeps serving. -/
def envOk : Env :=
  { serverNew := fun _ => (⟨1⟩, none)
    osCreate := fun _ => .ok ⟨3⟩
    startCPUProfile := fun _ => none
    addWebSocketHandler := fun _ _ => none
    listenAndServeWebSocket := fun _ => none
    listenAndServeWebSocketSecure := fun _ _ _ => none
    authNewManager := fun _ => .ok ⟨7⟩
    listenAndServe := fun _ _ => .blocks
    fileClose := fun _ => none
    svrClose := fun _ => none }

/-- Flags with no profiling and no secondary listener. -/
def flagsPlain : Flags :=
  { keepAlive := 300, connectTimeout := 2, ackTimeout := 20, timeoutRetries := 3
    authenticator := "mockSuccess", sessionsProvider := "mem", topicsProvider := "mem"
    cpuprofile := "", wsAddr := "", wssAddr := "", wssCertPath := "", wssKeyPath := "" }

/-- An environment in which creating the profile output file fails. -/
def envCreateFails : Env :=
  { envOk with osCreate := fun _ => .error ⟨"open: permission denied"⟩ }

/-- An environment in which `auth.NewManager` fails. -/
def envAuthFails : Env :=
  { envOk with authNewManager := fun _ => .error ⟨"unknown provider"⟩ }

/-- An environment in which both secondary listeners fail to bind, the profile
    file cannot be closed and closing the broker fails. -/
def envStepsFail : Env :=
  { envOk with
    listenAndServeWebSocket := fun _ => some ⟨"bind: address already in use"⟩
    listenAndServeWebSocketSecure := fun _ _ _ => some ⟨"bind: address already in use"⟩
    fileClose := fun _ => some ⟨"close: bad file descriptor"⟩
    svrClose := fun _ => some ⟨"server: not running"⟩ }

/-- Flags with profiling and both secondary listeners fully configured. -/
def flagsFull : Flags :=
  { flagsPlain with
    cpuprofile := "cpu.prof", wsAddr := ":8080", wssAddr := ":8081"
    wssCertPath := "cert.pem", wssKeyPath := "key.pem" }

/-- Flags selecting the authenticator provider "mockFailure". -/
def flagsMockFailure : Flags :=
  { flagsPlain with authenticator := "mockFailure" }

/-- Flags with only the plaintext websocket listener configured. -/
def flagsWs : Flags :=
  { flagsPlain with wsAddr := ":8080" }

/-- Flags with an encrypted listener address but no key file. -/
def flagsNoKey : Flags :=
  { flagsPlain with wsAddr := ":8080", wssAddr := ":8081", wssCertPath := "cert.pem" }

/-! ## Classifying calls -/

/-- The blocking call `svr.ListenAndServe` that starts the primary listener. -/
def Call.isListenAndServe : Call → Bool
  | .listenAndServe _ _ => true
  | _ => false

/-- Starting `listenAndServeWebSocketSecure`: the `go` statement of line 112 or
    the call inside its goroutine. -/
def Call.isSecureListener : Call → Bool
  | .goListenAndServeWebSocketSecure _ _ _ => true
  | .listenAndServeWebSocketSecure _ _ _ => true
  | _ => false

/-- The `go listenAndServeWebSocket(...)` statement of line 108. -/
def Call.isGoWebSocket : Call → Bool
  | .goListenAndServeWebSocket _ => true
  | _ => false

/-- Any step that brings up a listener: registering the websocket handler,
    launching or running a secondary listener, or `svr.ListenAndServe`. -/
def Call.isListenerStep : Call → Bool
  | .addWebSocketHandler _ _ => true
  | .goListenAndServeWebSocket _ => true
  | .goListenAndServeWebSocketSecure _ _ _ => true
  | .listenAndServeWebSocket _ => true
  | .listenAndServeWebSocketSecure _ _ _ => true
  | .listenAndServe _ _ => true
  | _ => false

/-- A reporting call: `appLog.Errorf` or `log.Fatal`. -/
def Call.isLog : Call → Bool
  | .logErrorf _ => true
  | .logFatal _ => true
  | _ => false

/-! ## The shape of a run of `main`

The definitions below only name the segments of the call sequence of `main`;
`main_trace_fatal` and `main_trace_ok` prove that `main` produces them. -/

/-- The `server.Config` literal of lines 67-73. -/
def serverConfigOf (fl : Flags) : ServerConfig :=
  { KeepAlive := fl.keepAlive
    ConnectTimeout := fl.connectTimeout
    AckTimeout := fl.ackTimeout
    TimeoutRetries := fl.timeoutRetries
    TopicsProvider := fl.topicsProvider }

/-- Calls of lines 77-84 when the profile file is created or not requested. -/
def profileEvents (fl : Flags) (env : Env) : List Event :=
  if fl.cpuprofile ≠ "" then
    match env.osCreate fl.cpuprofile with
    | .error err => [⟨.osCreate fl.cpuprofile, some err⟩, ⟨.logFatal err, none⟩]
    | .ok f => [⟨.osCreate fl.cpuprofile, none⟩, ⟨.startCPUProfile f, env.startCPUProfile f⟩]
  else []

/-- Calls of lines 86-101 in the main goroutine. -/
def armEvents : List Event :=
  [⟨.signalNotify [.SIGINT, .SIGTERM], none⟩, ⟨.goSignalWatcher, none⟩]

/-- Calls of lines 103-114. -/
def secondaryEvents (fl : Flags) (env : Env) : List Event :=
  (if fl.wsAddr ≠ "" ∨ fl.wssAddr ≠ "" then
    [(⟨.addWebSocketHandler "/mqtt" "tcp://127.0.0.1:1883",
        env.addWebSocketHandler "/mqtt" "tcp://127.0.0.1:1883"⟩ : Event)] else []) ++
  (if fl.wsAddr ≠ "" then [⟨.goListenAndServeWebSocket fl.wsAddr, none⟩] else []) ++
  (if fl.wssAddr ≠ "" ∧ fl.wssCertPath ≠ "" ∧ fl.wssKeyPath ≠ "" then
    [⟨.goListenAndServeWebSocketSecure fl.wssAddr fl.wssCertPath fl.wssKeyPath, none⟩] else [])

/-- Calls of lines 116-132. -/
def primaryEvents (env : Env) (svr : Server) : List Event :=
  match env.authNewManager "mockSuccess" with
  | .error err =>
    [⟨.authNewManager "mockSuccess", some err⟩,
     ⟨.logErrorf ("Couldn't register *mockSuccess* auth provider: " ++ err.msg), none⟩]
  | .ok m =>
    let l : Listener := { Scheme := "tcp", Host := "127.0.0.1", Port := 1883, AuthManager := m }
    match env.listenAndServe svr l with
    | .blocks => [⟨.authNewManager "mockSuccess", none⟩, ⟨.listenAndServe svr l, none⟩]
    | .returns none => [⟨.authNewManager "mockSuccess", none⟩, ⟨.listenAndServe svr l, none⟩]
    | .returns (some err) =>
      [⟨.authNewManager "mockSuccess", none⟩, ⟨.listenAndServe svr l, some err⟩,
       ⟨.logErrorf ("surgemq/main: " ++ err.msg), none⟩]

/-- The call `os.Exit`, which ends the process. -/
def Call.isExit : Call → Bool
  | .osExit _ => true
  | _ => false

/-- The provider name of an `auth.NewManager` call. -/
def Call.authProvider : Call → Option String
  | .authNewManager p => some p
  | _ => none

/-- Startup stage a call of `main` belongs to: 0 creating the server,
    1 profiling start, 2 arming the signal watcher, 3 requesting the secondary
    listeners, 4 creating the auth manager, 5 the blocking `svr.ListenAndServe`,
    6 whatever follows its return. -/
def Call.phase : Call → Nat
  | .serverNew _ => 0
  | .osCreate _ => 1
  | .logFatal _ => 1
  | .startCPUProfile _ => 1
  | .signalNotify _ => 2
  | .goSignalWatcher => 2
  | .addWebSocketHandler _ _ => 3
  | .goListenAndServeWebSocket _ => 3
  | .goListenAndServeWebSocketSecure _ _ _ => 3
  | .authNewManager _ => 4
  | .listenAndServe _ _ => 5
  | _ => 6

/-! ## The signal channel and the watcher goroutine (lines 86-101)

`sigchan` is a channel of capacity 1. `signal.Notify` makes the runtime relay
every SIGINT and SIGTERM to it with a send that never blocks: a signal that
finds the buffer full is dropped. The goroutine receives once, runs the closure
body and ends the process with `os.Exit(0)`; there is no loop. -/

/-- Where the watcher goroutine stands: blocked in `<-sigchan` (`armed`),
    running the closure body for the received signal with `pc` calls already
    made (`triggered`), or past `os.Exit` (`done`). -/
inductive Watcher where
  | armed
  | triggered (sig : Signal) (pc : Nat)
  | done
  deriving DecidableEq, Repr

/-- Position in the order Armed, Triggered, Done. -/
def Watcher.rank : Watcher → Nat
  | .armed => 0
  | .triggered _ _ => 1
  | .done => 2

/-- The buffer of `sigchan`, the watcher, and the calls the watcher has made. -/
structure SigState where
  sigchan : List Signal
  watcher : Watcher
  trace : List Event
  deriving DecidableEq, Repr

/-- What can happen next: the runtime relays a signal to `sigchan`, or the
    scheduler lets the watcher goroutine take one step. -/
inductive SigEvent where
  | deliver (sig : Signal)
  | run
  deriving DecidableEq, Repr

/-- Capacity of `sigchan`: `make(chan os.Signal, 1)`, line 86. -/
def sigchanCap : Nat := 1

/-- The state right after line 101: empty channel, watcher blocked. -/
def sigInit : SigState :=
  { sigchan := [], watcher := .armed, trace := [] }

/-- One step of the channel and the watcher. `svr` and `f` are the locals of
    `main` captured by the closure. -/
def sigStep (env : Env) (svr : Server) (f : Option File) (s : SigState) : SigEvent → SigState
  | .deliver sig =>
    match s.watcher with
    | .done => s
    | _ =>
      if s.sigchan.length < sigchanCap then { s with sigchan := s.sigchan ++ [sig] } else s
  | .run =>
    match s.watcher with
    | .armed =>
      -- line 89: sig := <-sigchan
      match s.sigchan with
      | [] => s
      | sig :: rest => { s with sigchan := rest, watcher := .triggered sig 0 }
    | .triggered sig pc =>
      -- lines 90-100, one call at a time
      match (signalWatcher env svr f sig)[pc]? with
      | none => s
      | some e =>
        { s with
          trace := s.trace ++ [e]
          watcher := if e.call.isExit then .done else .triggered sig (pc + 1) }
    | .done => s

/-- Run a whole schedule from the initial state. -/
def sigExec (env : Env) (svr : Server) (f : Option File) (evs : List SigEvent) : SigState :=
  evs.foldl (sigStep env svr f) sigInit

/-- The first signal a schedule delivers. -/
def firstSignal : List SigEvent → Option Signal
  | [] => none
  | .deliver sig :: _ => some sig
  | .run :: rest => firstSignal rest

/-- Invariant of the channel and the watcher once `sig` is the first signal
    relayed: the watcher still waits with `sig` buffered, or it is part-way
    through the closure body for `sig`, or it has made all of its calls. -/
def SigInv (env : Env) (svr : Server) (f : Option File) (sig : Signal) (s : SigState) : Prop :=
  match s.watcher with
  | .armed => s.sigchan = [sig] ∧ s.trace = []
  | .triggered sig2 pc =>
    sig2 = sig ∧ pc < (signalWatcher env svr f sig).length ∧
      s.trace = (signalWatcher env svr f sig).take pc
  | .done => s.trace = signalWatcher env svr f sig

/-- Number of watcher steps still needed to reach `done`, at most. -/
def sigMeasure (env : Env) (svr : Server) (f : Option File) (s : SigState) : Nat :=
  match s.watcher with
  | .armed => 7
  | .triggered sig pc => (signalWatcher env svr f sig).length - pc
  | .done => 0

/-! ## Lemmas on `main` -/

theorem len_pos_iff (s : String) : 0 < len s ↔ s ≠ "" := by
  cases s with
  | mk l =>
    cases l with
    | nil => simp [len, String.utf8ByteSize, String.utf8ByteSize.go]
    | cons c cs =>
      have h := c.utf8Size_pos
      have h2 : (String.mk (c :: cs)) ≠ "" := by
        intro h3
        have := congrArg String.data h3
        simp at this
      simp only [len, String.utf8ByteSize, String.utf8ByteSize.go]
      constructor
      · intro _; exact h2
      · intro _; omega

/-- When the profile file cannot be created, `main` stops at `log.Fatal`. -/
theorem main_trace_fatal (fl : Flags) (env : Env) (err : GoError)
    (hc : fl.cpuprofile ≠ "") (he : env.osCreate fl.cpuprofile = .error err) :
    main fl env =
      { trace := [⟨.serverNew (serverConfigOf fl), (env.serverNew (serverConfigOf fl)).2⟩,
                  ⟨.osCreate fl.cpuprofile, some err⟩, ⟨.logFatal err, none⟩]
        status := .exited 1
        f := none
        svr := (env.serverNew (serverConfigOf fl)).1 } := by
  simp [main, hc, he, serverConfigOf]

/-- When profiling is not requested or its file is created, `main` runs through
    all of its segments in source order. -/
theorem main_trace_ok (fl : Flags) (env : Env)
    (h : fl.cpuprofile = "" ∨ ∃ f, env.osCreate fl.cpuprofile = .ok f) :
    (main fl env).trace =
      [⟨.serverNew (serverConfigOf fl), (env.serverNew (serverConfigOf fl)).2⟩] ++
        profileEvents fl env ++ armEvents ++ secondaryEvents fl env ++
        primaryEvents env (env.serverNew (serverConfigOf fl)).1 := by
  have hp : ∃ f tp, (if fl.cpuprofile ≠ "" then
      match env.osCreate fl.cpuprofile with
      | .error err => (.error err : Except GoError (Option File × List Event))
      | .ok f =>
        .ok (some f, [⟨.osCreate fl.cpuprofile, none⟩,
                      ⟨.startCPUProfile f, env.startCPUProfile f⟩])
    else .ok (none, [])) = .ok (f, tp) ∧ tp = profileEvents fl env := by
    rcases h with h | ⟨f, h⟩
    · simp [h, profileEvents]
    · by_cases hc : fl.cpuprofile = "" <;> simp [h, hc, profileEvents]
  obtain ⟨f, tp, hp1, hp2⟩ := hp
  unfold main
  simp only [hp1, len_pos_iff]
  subst hp2
  by_cases h1 : fl.wsAddr = "" <;> by_cases h2 : fl.wssAddr = "" <;>
    by_cases h3 : fl.wssCertPath = "" <;> by_cases h4 : fl.wssKeyPath = "" <;>
    (cases ha : env.authNewManager "mockSuccess" with
     | error e =>
       simp [h1, h2, h3, h4, ha, secondaryEvents, primaryEvents, armEvents, serverConfigOf]
     | ok m =>
       simp only [ha, primaryEvents]
       split <;> simp_all [secondaryEvents, armEvents, serverConfigOf])

/-- The captured local `f` is nil exactly when profiling was not requested. -/
theorem main_f_none (fl : Flags) (env : Env) (h : fl.cpuprofile = "") :
    (main fl env).f = none := by
  unfold main
  simp only [h, ne_eq, not_true_eq_false, ↓reduceIte]
  cases env.authNewManager "mockSuccess" with
  | error e => rfl
  | ok m => simp only []; split <;> rfl

/-- The captured local `f` is the created file when profiling was set up. -/
theorem main_f_some (fl : Flags) (env : Env) (file : File)
    (hc : fl.cpuprofile ≠ "") (h : env.osCreate fl.cpuprofile = .ok file) :
    (main fl env).f = some file := by
  unfold main
  simp only [ne_eq, hc, not_false_eq_true, ↓reduceIte, h]
  cases env.authNewManager "mockSuccess" with
  | error e => rfl
  | ok m => simp only []; split <;> rfl

/-- The captured local `svr` is whatever `server.New` returned. -/
theorem main_svr (fl : Flags) (env : Env) :
    (main fl env).svr = (env.serverNew (serverConfigOf fl)).1 := by
  unfold main
  simp only [serverConfigOf]
  split
  · rfl
  · split
    · rfl
    · split <;> rfl

/-- Either profiling setup fails, or it is not requested or succeeds. -/
theorem profile_cases (fl : Flags) (env : Env) :
    (fl.cpuprofile ≠ "" ∧ ∃ err, env.osCreate fl.cpuprofile = .error err) ∨
      (fl.cpuprofile = "" ∨ ∃ f, env.osCreate fl.cpuprofile = .ok f) := by
  by_cases hc : fl.cpuprofile = ""
  · exact Or.inr (Or.inl hc)
  · cases h : env.osCreate fl.cpuprofile with
    | error err => exact Or.inl ⟨hc, err, rfl⟩
    | ok f => exact Or.inr (Or.inr ⟨f, rfl⟩)

/-- The primary-listener segment contains `svr.ListenAndServe` exactly when
    `auth.NewManager` succeeds. -/
theorem primaryEvents_listenAndServe (env : Env) (svr : Server) :
    (∃ e ∈ primaryEvents env svr, e.call.isListenAndServe = true) ↔
      ∃ m, env.authNewManager "mockSuccess" = .ok m := by
  unfold primaryEvents
  cases env.authNewManager "mockSuccess" with
  | error err => simp [Call.isListenAndServe]
  | ok m =>
    simp only []
    split <;> simp [Call.isListenAndServe]

/-- No call before the primary-listener segment is `svr.ListenAndServe`. -/
theorem startup_not_listenAndServe (fl : Flags) (env : Env) (e : Event)
    (h : e ∈ profileEvents fl env ++ armEvents ++ secondaryEvents fl env) :
    e.call.isListenAndServe = false := by
  simp only [List.mem_append, profileEvents, armEvents, secondaryEvents] at h
  rcases h with (h | h) | (h | h) | h
  · split at h
    · split at h <;> simp at h <;> rcases h with h | h <;> subst h <;> rfl
    · simp at h
  · simp at h; rcases h with h | h <;> subst h <;> rfl
  · split at h <;> simp at h; subst h; rfl
  · split at h <;> simp at h; subst h; rfl
  · split at h <;> simp at h; subst h; rfl

/-- The calls that can occur in the profiling segment. -/
theorem mem_profileEvents (fl : Flags) (env : Env) (e : Event) (h : e ∈ profileEvents fl env) :
    e.call = .osCreate fl.cpuprofile ∨ (∃ err, e.call = .logFatal err) ∨
      ∃ f, e.call = .startCPUProfile f := by
  unfold profileEvents at h
  split at h
  · split at h <;> simp at h <;> rcases h with h | h <;> subst h <;> simp
  · simp at h

/-- The calls that arm the signal watcher. -/
theorem mem_armEvents (e : Event) (h : e ∈ armEvents) :
    e.call = .signalNotify [.SIGINT, .SIGTERM] ∨ e.call = .goSignalWatcher := by
  simp [armEvents] at h
  rcases h with h | h <;> subst h <;> simp

/-- The secondary-listener segment, event by event. -/
theorem mem_secondaryEvents (fl : Flags) (env : Env) (e : Event) :
    e ∈ secondaryEvents fl env ↔
      ((fl.wsAddr ≠ "" ∨ fl.wssAddr ≠ "") ∧
          e = ⟨.addWebSocketHandler "/mqtt" "tcp://127.0.0.1:1883",
                env.addWebSocketHandler "/mqtt" "tcp://127.0.0.1:1883"⟩) ∨
        (fl.wsAddr ≠ "" ∧ e = ⟨.goListenAndServeWebSocket fl.wsAddr, none⟩) ∨
        ((fl.wssAddr ≠ "" ∧ fl.wssCertPath ≠ "" ∧ fl.wssKeyPath ≠ "") ∧
          e = ⟨.goListenAndServeWebSocketSecure fl.wssAddr fl.wssCertPath fl.wssKeyPath, none⟩) := by
  unfold secondaryEvents
  by_cases h1 : fl.wsAddr = "" <;> by_cases h2 : fl.wssAddr = "" <;>
    by_cases h3 : fl.wssCertPath = "" <;> by_cases h4 : fl.wssKeyPath = "" <;>
    simp [h1, h2, h3, h4]

/-- The calls that can occur in the primary-listener segment. -/
theorem mem_primaryEvents (env : Env) (svr : Server) (e : Event)
    (h : e ∈ primaryEvents env svr) :
    e.call = .authNewManager "mockSuccess" ∨ (∃ l, e.call = .listenAndServe svr l) ∨
      ∃ text, e.call = .logErrorf text := by
  unfold primaryEvents at h
  split at h
  · simp at h; rcases h with h | h <;> subst h <;> simp
  · simp only [] at h
    split at h <;> simp at h <;>
      first
      | (rcases h with h | h | h <;> subst h <;> simp)
      | (rcases h with h | h <;> subst h <;> simp)

/-- Every call of `main` belongs to one of its segments. -/
theorem mem_main_trace (fl : Flags) (env : Env) (e : Event) (h : e ∈ (main fl env).trace) :
    e.call = .serverNew (serverConfigOf fl) ∨ e ∈ profileEvents fl env ∨ e ∈ armEvents ∨
      e ∈ secondaryEvents fl env ∨ e ∈ primaryEvents env (env.serverNew (serverConfigOf fl)).1 := by
  rcases profile_cases fl env with ⟨hc, err, he⟩ | hok
  · rw [main_trace_fatal fl env err hc he] at h
    simp at h
    rcases h with h | h | h
    · left; subst h; rfl
    · right; left; subst h; simp [profileEvents, hc, he]
    · right; left; subst h; simp [profileEvents, hc, he]
  · rw [main_trace_ok fl env hok] at h
    simp only [List.mem_append, List.mem_singleton] at h
    rcases h with (((h | h) | h) | h) | h
    · left; subst h; rfl
    · right; left; exact h
    · right; right; left; exact h
    · right; right; right; left; exact h
    · right; right; right; right; exact h

/-- An event of the program is an event of `main` or of a goroutine that a
    `go` statement of `main` started. -/
theorem mem_programEvents (fl : Flags) (env : Env) (e : Event) :
    e ∈ programEvents fl env ↔
      e ∈ (main fl env).trace ∨ ∃ g ∈ (main fl env).trace, e ∈ spawned env g.call := by
  simp [programEvents, List.mem_flatten]

/-- A `go` statement for the encrypted listener only occurs with all three of
    its settings non-empty, and carries exactly those settings. -/
theorem goSecure_mem_main (fl : Flags) (env : Env) (g : Event) (a c k : String)
    (hg : g ∈ (main fl env).trace) (hc : g.call = .goListenAndServeWebSocketSecure a c k) :
    (fl.wssAddr ≠ "" ∧ fl.wssCertPath ≠ "" ∧ fl.wssKeyPath ≠ "") ∧
      a = fl.wssAddr ∧ c = fl.wssCertPath ∧ k = fl.wssKeyPath := by
  rcases mem_main_trace fl env g hg with h | h | h | h | h
  · rw [h] at hc; cases hc
  · rcases mem_profileEvents fl env g h with h | ⟨_, h⟩ | ⟨_, h⟩ <;> rw [h] at hc <;> cases hc
  · rcases mem_armEvents g h with h | h <;> rw [h] at hc <;> cases hc
  · rcases (mem_secondaryEvents fl env g).1 h with ⟨_, h⟩ | ⟨_, h⟩ | ⟨h3, h⟩
    · subst h; cases hc
    · subst h; cases hc
    · subst h; cases hc; exact ⟨h3, rfl, rfl, rfl⟩
  · rcases mem_primaryEvents env _ g h with h | ⟨_, h⟩ | ⟨_, h⟩ <;> rw [h] at hc <;> cases hc

/-! ## Claims -/

/-- C1: `main` calls `svr.ListenAndServe`, starting the primary listener, if
    and only if the profile output file was created whenever `cpuprofile` is
    non-empty and `auth.NewManager` returned no error. This holds for every
    configuration and every outcome of the other external calls, the dropped
    result of `pprof.StartCPUProfile` included. -/
theorem main_listenAndServe_iff (fl : Flags) (env : Env) :
    (∃ e ∈ (main fl env).trace, e.call.isListenAndServe = true) ↔
      ((fl.cpuprofile ≠ "" → ∃ f, env.osCreate fl.cpuprofile = .ok f) ∧
        ∃ m, env.authNewManager "mockSuccess" = .ok m) := by
  rcases profile_cases fl env with ⟨hc, err, he⟩ | hok
  · rw [main_trace_fatal fl env err hc he]
    constructor
    · rintro ⟨e, hmem, hl⟩
      simp at hmem
      rcases hmem with h | h | h <;> subst h <;> simp [Call.isListenAndServe] at hl
    · rintro ⟨h1, _⟩
      obtain ⟨f, hf⟩ := h1 hc
      rw [he] at hf
      cases hf
  · rw [main_trace_ok fl env hok]
    have hpre : fl.cpuprofile ≠ "" → ∃ f, env.osCreate fl.cpuprofile = .ok f := by
      intro hc
      rcases hok with h | h
      · exact absurd h hc
      · exact h
    constructor
    · rintro ⟨e, hmem, hl⟩
      refine ⟨hpre, ?_⟩
      rw [List.mem_append] at hmem
      rcases hmem with hmem | hmem
      · rw [List.append_assoc, List.append_assoc, List.mem_append] at hmem
        rcases hmem with hmem | hmem
        · simp at hmem; subst hmem; simp [Call.isListenAndServe] at hl
        · rw [← List.append_assoc] at hmem
          rw [startup_not_listenAndServe fl env e hmem] at hl
          cases hl
      · exact (primaryEvents_listenAndServe env _).1 ⟨e, hmem, hl⟩
    · rintro ⟨_, hm⟩
      obtain ⟨e, hmem, hl⟩ := (primaryEvents_listenAndServe env
        (env.serverNew (serverConfigOf fl)).1).2 hm
      exact ⟨e, List.mem_append_right _ hmem, hl⟩

/-- C2: with `wssAddr` non-empty but `wssCertPath` or `wssKeyPath` empty, no
    run starts `listenAndServeWebSocketSecure`, neither by the `go` statement
    nor inside a goroutine, whatever `wsAddr` and the other settings are; and in
    any run that does start it, `wssAddr`, `wssCertPath` and `wssKeyPath` are all
    non-empty. -/
theorem secure_listener_needs_cert_and_key (fl : Flags) (env : Env) :
    (fl.wssAddr ≠ "" → (fl.wssCertPath = "" ∨ fl.wssKeyPath = "") →
        ∀ e ∈ programEvents fl env, e.call.isSecureListener = false) ∧
      ((∃ e ∈ programEvents fl env, e.call.isSecureListener = true) →
        fl.wssAddr ≠ "" ∧ fl.wssCertPath ≠ "" ∧ fl.wssKeyPath ≠ "") := by
  have key : (∃ e ∈ programEvents fl env, e.call.isSecureListener = true) →
      fl.wssAddr ≠ "" ∧ fl.wssCertPath ≠ "" ∧ fl.wssKeyPath ≠ "" := by
    rintro ⟨e, hmem, hs⟩
    rcases (mem_programEvents fl env e).1 hmem with hmain | ⟨g, hg, hsp⟩
    · cases hcall : e.call with
      | goListenAndServeWebSocketSecure a c k => exact (goSecure_mem_main fl env e a c k hmain hcall).1
      | listenAndServeWebSocketSecure a c k =>
        rcases mem_main_trace fl env e hmain with h | h | h | h | h
        · rw [h] at hcall; cases hcall
        · rcases mem_profileEvents fl env e h with h | ⟨_, h⟩ | ⟨_, h⟩ <;>
            rw [h] at hcall <;> cases hcall
        · rcases mem_armEvents e h with h | h <;> rw [h] at hcall <;> cases hcall
        · rcases (mem_secondaryEvents fl env e).1 h with ⟨_, h⟩ | ⟨_, h⟩ | ⟨_, h⟩ <;>
            subst h <;> cases hcall
        · rcases mem_primaryEvents env _ e h with h | ⟨_, h⟩ | ⟨_, h⟩ <;>
            rw [h] at hcall <;> cases hcall
      | _ => rw [hcall] at hs; simp [Call.isSecureListener] at hs
    · cases hcall : g.call with
      | goListenAndServeWebSocketSecure a c k => exact (goSecure_mem_main fl env g a c k hg hcall).1
      | goListenAndServeWebSocket a =>
        rw [hcall] at hsp
        simp [spawned] at hsp
        subst hsp
        simp [Call.isSecureListener] at hs
      | _ => rw [hcall] at hsp; simp [spawned] at hsp
  refine ⟨?_, key⟩
  intro _ hmiss e hmem
  cases hs : e.call.isSecureListener with
  | false => rfl
  | true =>
    obtain ⟨_, h3, h4⟩ := key ⟨e, hmem, hs⟩
    rcases hmiss with h | h
    · exact absurd h h3
    · exact absurd h h4


theorem filter_goWebSocket_main (fl : Flags) (env : Env)
    (hok : fl.cpuprofile = "" ∨ ∃ f, env.osCreate fl.cpuprofile = .ok f) :
    (main fl env).trace.filter (fun e => e.call.isGoWebSocket) =
      if fl.wsAddr ≠ "" then [⟨.goListenAndServeWebSocket fl.wsAddr, none⟩] else [] := by
  rw [main_trace_ok fl env hok]
  have h1 : (profileEvents fl env).filter (fun e => e.call.isGoWebSocket) = [] := by
    unfold profileEvents
    split
    · split <;> simp [Call.isGoWebSocket]
    · rfl
  have h2 : (primaryEvents env (env.serverNew (serverConfigOf fl)).1).filter
      (fun e => e.call.isGoWebSocket) = [] := by
    unfold primaryEvents
    split
    · simp [Call.isGoWebSocket]
    · simp only []
      split <;> simp [Call.isGoWebSocket]
  have h3 : (secondaryEvents fl env).filter (fun e => e.call.isGoWebSocket) =
      if fl.wsAddr ≠ "" then [⟨.goListenAndServeWebSocket fl.wsAddr, none⟩] else [] := by
    unfold secondaryEvents
    by_cases h1 : fl.wsAddr = "" <;> by_cases h2 : fl.wssAddr = "" <;>
      by_cases h3 : fl.wssCertPath = "" <;> by_cases h4 : fl.wssKeyPath = "" <;>
      simp [h1, h2, h3, h4, Call.isGoWebSocket]
  simp only [List.filter_append, h1, h2, h3]
  simp [armEvents, Call.isGoWebSocket]

/-- C10: when startup reaches the listener stage (profiling is not requested or
    its file was created), `main` executes `go listenAndServeWebSocket(...)` if
    and only if `wsAddr` is non-empty; it does so with `wsAddr` as the bind
    address, and replacing `wssAddr`, `wssCertPath` and `wssKeyPath` by any other
    values leaves these `go` statements unchanged. -/
theorem plain_listener_iff_wsAddr (fl : Flags) (env : Env)
    (hok : fl.cpuprofile = "" ∨ ∃ f, env.osCreate fl.cpuprofile = .ok f) :
    ((∃ e ∈ (main fl env).trace, e.call.isGoWebSocket = true) ↔ fl.wsAddr ≠ "") ∧
      (∀ e ∈ (main fl env).trace, ∀ a, e.call = .goListenAndServeWebSocket a → a = fl.wsAddr) ∧
      ∀ a c k : String,
        (main { fl with wssAddr := a, wssCertPath := c, wssKeyPath := k } env).trace.filter
            (fun e => e.call.isGoWebSocket) =
          (main fl env).trace.filter (fun e => e.call.isGoWebSocket) := by
  have hf := filter_goWebSocket_main fl env hok
  refine ⟨?_, ?_, ?_⟩
  · constructor
    · rintro ⟨e, hmem, he⟩
      have : e ∈ (main fl env).trace.filter (fun e => e.call.isGoWebSocket) :=
        List.mem_filter.2 ⟨hmem, he⟩
      rw [hf] at this
      by_cases h : fl.wsAddr = ""
      · simp [h] at this
      · exact h
    · intro h
      have : (⟨.goListenAndServeWebSocket fl.wsAddr, none⟩ : Event) ∈
          (main fl env).trace.filter (fun e => e.call.isGoWebSocket) := by
        rw [hf]; simp [h]
      exact ⟨_, (List.mem_filter.1 this).1, rfl⟩
  · intro e hmem a hc
    have : e ∈ (main fl env).trace.filter (fun e => e.call.isGoWebSocket) :=
      List.mem_filter.2 ⟨hmem, by rw [hc]; rfl⟩
    rw [hf] at this
    by_cases h : fl.wsAddr = ""
    · simp [h] at this
    · simp [h] at this
      subst this
      cases hc
      rfl
  · intro a c k
    rw [hf, filter_goWebSocket_main { fl with wssAddr := a, wssCertPath := c, wssKeyPath := k }
      env hok]

/-- C10 at `-wsaddr=:8080 -wssaddr=:8081 -wsscertpath=cert.pem`: the plaintext
    listener is requested although the encrypted one is not fully configured. -/
theorem plain_listener_iff_wsAddr_witness :
    (flagsNoKey.cpuprofile = "" ∨ ∃ f, envOk.osCreate flagsNoKey.cpuprofile = .ok f) ∧
      (∃ e ∈ (main flagsNoKey envOk).trace, e.call.isGoWebSocket = true) ∧
      flagsNoKey.wsAddr = ":8080" :=
  ⟨Or.inl rfl,
    ((plain_listener_iff_wsAddr flagsNoKey envOk (Or.inl rfl)).1).2 (by decide), rfl⟩

/-- C4: if `cpuprofile` is non-empty and `os.Create` fails, `main` ends in
    `log.Fatal` (exit status 1) right after the failed call, and no run event
    registers the websocket handler, launches or runs a secondary listener, or
    calls `svr.ListenAndServe`, whatever the other settings are. -/
theorem profile_create_failure_is_fatal (fl : Flags) (env : Env) (err : GoError)
    (hc : fl.cpuprofile ≠ "") (he : env.osCreate fl.cpuprofile = .error err) :
    (main fl env).status = .exited 1 ∧
      (main fl env).trace.getLast? = some ⟨.logFatal err, none⟩ ∧
      ∀ e ∈ programEvents fl env, e.call.isListenerStep = false := by
  unfold programEvents
  rw [main_trace_fatal fl env err hc he]
  refine ⟨rfl, rfl, ?_⟩
  intro e he
  simp [spawned] at he
  rcases he with h | h | h <;> subst h <;> rfl

/-- C4 at a full configuration whose profile file cannot be created. -/
theorem profile_create_failure_is_fatal_witness :
    flagsFull.cpuprofile ≠ "" ∧
      envCreateFails.osCreate flagsFull.cpuprofile = .error ⟨"open: permission denied"⟩ ∧
      (main flagsFull envCreateFails).status = .exited 1 ∧
      (main flagsFull envCreateFails).trace.getLast? =
        some ⟨.logFatal ⟨"open: permission denied"⟩, none⟩ ∧
      ∀ e ∈ programEvents flagsFull envCreateFails, e.call.isListenerStep = false :=
  ⟨by decide, rfl,
    profile_create_failure_is_fatal flagsFull envCreateFails ⟨"open: permission denied"⟩
      (by decide) rfl⟩


/-- C3: with a profiling session active (`cpuprofile` non-empty and the file
    created), the closure run on a signal makes, besides its two log calls,
    exactly the calls stop CPU profile, close the profile file, `svr.Close`,
    `os.Exit(0)`, in this order, for every outcome of `f.Close` and `svr.Close`
    (and of every other external call): no returned error stops a later step or
    the termination. -/
theorem signalWatcher_with_profile (fl : Flags) (env : Env) (sig : Signal) (file : File)
    (hc : fl.cpuprofile ≠ "") (hf : env.osCreate fl.cpuprofile = .ok file) :
    (signalWatcher env (main fl env).svr (main fl env).f sig).map Event.call =
        [.logErrorf ("Existing due to trapped signal; " ++ sig.toText),
         .logErrorf "Stopping profile",
         .stopCPUProfile, .fileClose file, .svrClose (main fl env).svr, .osExit 0] ∧
      ((signalWatcher env (main fl env).svr (main fl env).f sig).filter
          (fun e => !e.call.isLog)).map Event.call =
        [.stopCPUProfile, .fileClose file, .svrClose (main fl env).svr, .osExit 0] := by
  rw [main_f_some fl env file hc hf]
  constructor <;> simp [signalWatcher, Call.isLog]

/-- C3 at a run where closing the profile file and closing the broker both
    return an error: all six calls are still made. -/
theorem signalWatcher_with_profile_witness :
    flagsFull.cpuprofile ≠ "" ∧ envStepsFail.osCreate flagsFull.cpuprofile = .ok ⟨3⟩ ∧
      signalWatcher envStepsFail (main flagsFull envStepsFail).svr
          (main flagsFull envStepsFail).f .SIGTERM =
        [⟨.logErrorf "Existing due to trapped signal; terminated", none⟩,
         ⟨.logErrorf "Stopping profile", none⟩,
         ⟨.stopCPUProfile, none⟩,
         ⟨.fileClose ⟨3⟩, some ⟨"close: bad file descriptor"⟩⟩,
         ⟨.svrClose ⟨1⟩, some ⟨"server: not running"⟩⟩,
         ⟨.osExit 0, none⟩] ∧
      ((signalWatcher envStepsFail (main flagsFull envStepsFail).svr
          (main flagsFull envStepsFail).f .SIGTERM).filter
          (fun e => !e.call.isLog)).map Event.call =
        [.stopCPUProfile, .fileClose ⟨3⟩, .svrClose (main flagsFull envStepsFail).svr,
         .osExit 0] :=
  ⟨by decide, rfl, by decide,
    (signalWatcher_with_profile flagsFull envStepsFail .SIGTERM ⟨3⟩ (by decide) rfl).2⟩

/-- C5: if `cpuprofile` is empty, the captured file handle `f` is nil and the
    closure run on a signal makes, besides its log call, only the calls
    `svr.Close` and `os.Exit(0)`: it never calls `pprof.StopCPUProfile` and never
    closes a file. -/
theorem signalWatcher_without_profile (fl : Flags) (env : Env) (sig : Signal)
    (hc : fl.cpuprofile = "") :
    (main fl env).f = none ∧
      (signalWatcher env (main fl env).svr (main fl env).f sig).map Event.call =
        [.logErrorf ("Existing due to trapped signal; " ++ sig.toText),
         .svrClose (main fl env).svr, .osExit 0] ∧
      ∀ e ∈ signalWatcher env (main fl env).svr (main fl env).f sig,
        e.call ≠ .stopCPUProfile ∧ ∀ file, e.call ≠ .fileClose file := by
  rw [main_f_none fl env hc]
  refine ⟨rfl, by simp [signalWatcher], ?_⟩
  intro e he
  simp [signalWatcher] at he
  rcases he with h | h | h <;> subst h <;> simp

/-- C5 at the configuration without profiling and without secondary listeners. -/
theorem signalWatcher_without_profile_witness :
    flagsPlain.cpuprofile = "" ∧ (main flagsPlain envOk).f = none ∧
      signalWatcher envOk (main flagsPlain envOk).svr (main flagsPlain envOk).f .SIGINT =
        [⟨.logErrorf "Existing due to trapped signal; interrupt", none⟩,
         ⟨.svrClose ⟨1⟩, none⟩, ⟨.osExit 0, none⟩] :=
  ⟨rfl, (signalWatcher_without_profile flagsPlain envOk .SIGINT rfl).1, by decide⟩

/-- Every `auth.NewManager` call of `main` names the provider "mockSuccess". -/
theorem main_auth_provider (fl : Flags) (env : Env) (e : Event) (p : String)
    (hmem : e ∈ (main fl env).trace) (hp : e.call = .authNewManager p) : p = "mockSuccess" := by
  rcases mem_main_trace fl env e hmem with h | h | h | h | h
  · rw [h] at hp; cases hp
  · rcases mem_profileEvents fl env e h with h | ⟨_, h⟩ | ⟨_, h⟩ <;> rw [h] at hp <;> cases hp
  · rcases mem_armEvents e h with h | h <;> rw [h] at hp <;> cases hp
  · rcases (mem_secondaryEvents fl env e).1 h with ⟨_, h⟩ | ⟨_, h⟩ | ⟨_, h⟩ <;>
      subst h <;> cases hp
  · rcases mem_primaryEvents env _ e h with h | ⟨_, h⟩ | ⟨_, h⟩ <;> rw [h] at hp <;> cases hp
    rfl

/-- C7, evaluated at `-auth=mockFailure`: the only `auth.NewManager` call of
    `main` is made with "mockSuccess", not with the configured provider name. -/
theorem auth_flag_ignored :
    flagsMockFailure.authenticator = "mockFailure" ∧
      (main flagsMockFailure envOk).trace.filterMap (fun e => e.call.authProvider) =
        ["mockSuccess"] := by
  decide


/-! ## Lemmas on the signal watcher -/

/-- The closure body makes three calls, or six with a profile file. -/
theorem signalWatcher_length (env : Env) (svr : Server) (f : Option File) (sig : Signal) :
    0 < (signalWatcher env svr f sig).length ∧ (signalWatcher env svr f sig).length ≤ 6 := by
  cases f <;> simp [signalWatcher]

/-- In the closure body `os.Exit` is the last call and only the last. -/
theorem signalWatcher_exit_last (env : Env) (svr : Server) (f : Option File) (sig : Signal)
    (pc : Nat) (e : Event) (h : (signalWatcher env svr f sig)[pc]? = some e) :
    e.call.isExit = true ↔ pc + 1 = (signalWatcher env svr f sig).length := by
  cases f with
  | none =>
    simp only [signalWatcher, List.cons_append, List.nil_append, List.length_cons,
      List.length_nil] at h ⊢
    rcases pc with _ | _ | _ | pc <;> simp at h <;> subst h <;> simp [Call.isExit]
  | some file =>
    simp only [signalWatcher, List.cons_append, List.nil_append, List.length_cons,
      List.length_nil] at h ⊢
    rcases pc with _ | _ | _ | _ | _ | _ | pc <;> simp at h <;> subst h <;> simp [Call.isExit]

/-- A step keeps the invariant. -/
theorem sigStep_inv (env : Env) (svr : Server) (f : Option File) (sig : Signal)
    (s : SigState) (ev : SigEvent) (h : SigInv env svr f sig s) :
    SigInv env svr f sig (sigStep env svr f s ev) := by
  obtain ⟨ch, w, tr⟩ := s
  cases ev with
  | deliver sg =>
    cases w with
    | armed =>
      simp only [SigInv] at h
      obtain ⟨h1, h2⟩ := h
      subst h1
      simpa [sigStep, sigchanCap, SigInv] using h2
    | triggered sig2 pc =>
      simp only [sigStep]
      split <;> exact h
    | done => exact h
  | run =>
    cases w with
    | armed =>
      simp only [SigInv] at h
      obtain ⟨h1, h2⟩ := h
      subst h1 h2
      simpa [sigStep, SigInv] using (signalWatcher_length env svr f sig).1
    | triggered sig2 pc =>
      simp only [SigInv] at h
      obtain ⟨h1, h2, h3⟩ := h
      subst h1 h3
      have hget : (signalWatcher env svr f sig2)[pc]? = some ((signalWatcher env svr f sig2)[pc]) :=
        List.getElem?_eq_getElem h2
      have hex := signalWatcher_exit_last env svr f sig2 pc _ hget
      simp only [sigStep, hget]
      by_cases hx : ((signalWatcher env svr f sig2)[pc]).call.isExit = true
      · have hlen := hex.1 hx
        simp only [hx, if_true, SigInv]
        rw [List.take_concat_get' _ pc h2, hlen, List.take_length]
      · have hlen : pc + 1 < (signalWatcher env svr f sig2).length := by
          have := mt hex.2 hx
          omega
        simp only [hx, SigInv]
        exact ⟨rfl, hlen, List.take_concat_get' _ pc h2⟩
    | done => exact h

/-- A whole schedule keeps the invariant. -/
theorem sigFold_inv (env : Env) (svr : Server) (f : Option File) (sig : Signal)
    (evs : List SigEvent) (s : SigState) (h : SigInv env svr f sig s) :
    SigInv env svr f sig (evs.foldl (sigStep env svr f) s) := by
  induction evs generalizing s with
  | nil => exact h
  | cons ev rest ih => exact ih _ (sigStep_inv env svr f sig s ev h)

/-- Once the first signal of a schedule is `sig`, the invariant for `sig` holds. -/
theorem sigExec_inv (env : Env) (svr : Server) (f : Option File) (sig : Signal)
    (evs : List SigEvent) (h : firstSignal evs = some sig) :
    SigInv env svr f sig (sigExec env svr f evs) := by
  unfold sigExec
  induction evs with
  | nil => simp [firstSignal] at h
  | cons ev rest ih =>
    cases ev with
    | run =>
      have : sigStep env svr f sigInit .run = sigInit := rfl
      rw [List.foldl_cons, this]
      exact ih h
    | deliver sg =>
      simp only [firstSignal, Option.some.injEq] at h
      subst h
      rw [List.foldl_cons]
      apply sigFold_inv
      simp [sigStep, sigInit, sigchanCap, SigInv]

/-- Under the invariant the calls made so far open the closure body. -/
theorem sigInv_trace (env : Env) (svr : Server) (f : Option File) (sig : Signal)
    (s : SigState) (h : SigInv env svr f sig s) :
    s.trace <+: signalWatcher env svr f sig := by
  obtain ⟨ch, w, tr⟩ := s
  cases w with
  | armed => simp only [SigInv] at h; rw [h.2]; exact List.nil_prefix
  | triggered sig2 pc => simp only [SigInv] at h; rw [h.2.2]; exact List.take_prefix _ _
  | done => simp only [SigInv] at h; rw [h]

/-- A step never moves the watcher backwards. -/
theorem sigStep_rank (env : Env) (svr : Server) (f : Option File) (s : SigState)
    (ev : SigEvent) : s.watcher.rank ≤ (sigStep env svr f s ev).watcher.rank := by
  obtain ⟨ch, w, tr⟩ := s
  cases ev with
  | deliver sg =>
    cases w with
    | armed => simp only [sigStep]; split <;> exact Nat.le_refl _
    | triggered sig2 pc => simp only [sigStep]; split <;> exact Nat.le_refl _
    | done => exact Nat.le_refl _
  | run =>
    cases w with
    | armed => cases ch <;> simp [sigStep, Watcher.rank]
    | triggered sig2 pc =>
      simp only [sigStep]
      split
      · exact Nat.le_refl _
      · simp only []
        split <;> simp [Watcher.rank]
    | done => exact Nat.le_refl _

/-- A schedule never moves the watcher backwards. -/
theorem sigFold_rank (env : Env) (svr : Server) (f : Option File) (evs : List SigEvent)
    (s : SigState) : s.watcher.rank ≤ (evs.foldl (sigStep env svr f) s).watcher.rank := by
  induction evs generalizing s with
  | nil => exact Nat.le_refl _
  | cons ev rest ih => exact Nat.le_trans (sigStep_rank env svr f s ev) (ih _)

/-- After `os.Exit` nothing changes any more. -/
theorem sigFold_done (env : Env) (svr : Server) (f : Option File) (evs : List SigEvent)
    (s : SigState) (h : s.watcher = .done) : evs.foldl (sigStep env svr f) s = s := by
  induction evs with
  | nil => rfl
  | cons ev rest ih =>
    have : sigStep env svr f s ev = s := by
      obtain ⟨ch, w, tr⟩ := s
      simp only at h
      subst h
      cases ev <;> rfl
    rw [List.foldl_cons, this, ih]

/-- Under the invariant each watcher step brings `done` nearer. -/
theorem sigStep_measure (env : Env) (svr : Server) (f : Option File) (sig : Signal)
    (s : SigState) (h : SigInv env svr f sig s) :
    sigMeasure env svr f (sigStep env svr f s .run) ≤ sigMeasure env svr f s - 1 := by
  obtain ⟨ch, w, tr⟩ := s
  cases w with
  | armed =>
    simp only [SigInv] at h
    obtain ⟨h1, h2⟩ := h
    subst h1
    have := (signalWatcher_length env svr f sig).2
    simp only [sigStep, sigMeasure]
    omega
  | triggered sig2 pc =>
    simp only [SigInv] at h
    obtain ⟨h1, h2, h3⟩ := h
    subst h1
    have hget : (signalWatcher env svr f sig2)[pc]? = some ((signalWatcher env svr f sig2)[pc]) :=
      List.getElem?_eq_getElem h2
    simp only [sigStep, hget]
    by_cases hx : ((signalWatcher env svr f sig2)[pc]).call.isExit = true
    · simp [hx, sigMeasure]
    · simp only [hx, sigMeasure]
      simp only [Bool.false_eq_true, ↓reduceIte]
      omega
  | done => simp [sigStep, sigMeasure]

/-- Under the invariant, measure zero means the watcher is done. -/
theorem sigMeasure_zero (env : Env) (svr : Server) (f : Option File) (sig : Signal)
    (s : SigState) (h : SigInv env svr f sig s) (h0 : sigMeasure env svr f s = 0) :
    s.watcher = .done := by
  obtain ⟨ch, w, tr⟩ := s
  cases w with
  | armed => simp [sigMeasure] at h0
  | triggered sig2 pc =>
    simp only [SigInv] at h
    obtain ⟨h1, h2, _⟩ := h
    subst h1
    simp only [sigMeasure] at h0
    omega
  | done => rfl

/-- Relaying a signal does not move the watcher. -/
theorem sigStep_deliver_watcher (env : Env) (svr : Server) (f : Option File) (s : SigState)
    (sg : Signal) : (sigStep env svr f s (.deliver sg)).watcher = s.watcher := by
  obtain ⟨ch, w, tr⟩ := s
  cases w <;> simp only [sigStep] <;> split <;> rfl

/-- Under the invariant, a schedule lowers the measure by at least the number
    of watcher steps in it. -/
theorem sigFold_measure (env : Env) (svr : Server) (f : Option File) (sig : Signal)
    (evs : List SigEvent) (s : SigState) (h : SigInv env svr f sig s) :
    sigMeasure env svr f (evs.foldl (sigStep env svr f) s) ≤
      sigMeasure env svr f s - evs.count .run := by
  induction evs generalizing s with
  | nil => exact Nat.le_refl _
  | cons ev rest ih =>
    rw [List.foldl_cons]
    have h2 := ih _ (sigStep_inv env svr f sig s ev h)
    cases ev with
    | deliver sg =>
      have hw := sigStep_deliver_watcher env svr f s sg
      have hm : sigMeasure env svr f (sigStep env svr f s (.deliver sg)) =
          sigMeasure env svr f s := by
        simp only [sigMeasure, hw]
      rw [hm] at h2
      have hc : (SigEvent.deliver sg :: rest).count .run = rest.count .run := by
        simp [List.count_cons]
      rw [hc]
      exact h2
    | run =>
      have h1 := sigStep_measure env svr f sig s h
      have hc : (SigEvent.run :: rest).count .run = rest.count .run + 1 := by
        simp [List.count_cons]
      rw [hc]
      omega

/-- The measure never exceeds seven. -/
theorem sigMeasure_le (env : Env) (svr : Server) (f : Option File) (s : SigState) :
    sigMeasure env svr f s ≤ 7 := by
  obtain ⟨ch, w, tr⟩ := s
  cases w with
  | armed => exact Nat.le_refl _
  | triggered sig2 pc =>
    have := (signalWatcher_length env svr f sig2).2
    simp only [sigMeasure]
    omega
  | done => simp [sigMeasure]

/-- C8: take any schedule of signal deliveries and watcher steps that starts
    once the watcher is armed, and let `sig` be the first signal it delivers.
    At every moment the calls made by the watcher are an initial part of the one
    shutdown sequence for `sig`; the watcher only moves forward in the order
    Armed, Triggered, Done, whatever happens later; and as soon as the watcher
    has been scheduled seven times, the shutdown sequence has been executed
    exactly once, no matter how many further signals are delivered before,
    between or after these steps. -/
theorem shutdown_runs_once (env : Env) (svr : Server) (f : Option File)
    (evs : List SigEvent) (sig : Signal) (hfirst : firstSignal evs = some sig) :
    (sigExec env svr f evs).trace <+: signalWatcher env svr f sig ∧
      (∀ more : List SigEvent,
        (sigExec env svr f evs).watcher.rank ≤ (sigExec env svr f (evs ++ more)).watcher.rank) ∧
      ∀ more : List SigEvent, 7 ≤ more.count .run →
        (sigExec env svr f (evs ++ more)).watcher = .done ∧
          (sigExec env svr f (evs ++ more)).trace = signalWatcher env svr f sig := by
  have hinv := sigExec_inv env svr f sig evs hfirst
  refine ⟨sigInv_trace env svr f sig _ hinv, ?_, ?_⟩
  · intro more
    simp only [sigExec, List.foldl_append]
    exact sigFold_rank env svr f more _
  · intro more hcount
    have hinv2 : SigInv env svr f sig (sigExec env svr f (evs ++ more)) := by
      simp only [sigExec, List.foldl_append]
      exact sigFold_inv env svr f sig more _ hinv
    have hm := sigFold_measure env svr f sig more _ hinv
    have hle := sigMeasure_le env svr f (sigExec env svr f evs)
    have hzero : sigMeasure env svr f (sigExec env svr f (evs ++ more)) = 0 := by
      simp only [sigExec, List.foldl_append] at hm ⊢
      simp only [sigExec] at hle
      omega
    have hdone := sigMeasure_zero env svr f sig _ hinv2 hzero
    refine ⟨hdone, ?_⟩
    have := hinv2
    unfold SigInv at this
    rw [hdone] at this
    exact this

/-- C8 at a schedule with five signals around the watcher steps: one shutdown
    sequence, for the first signal. -/
theorem shutdown_runs_once_witness :
    firstSignal [.run, .deliver .SIGINT, .deliver .SIGTERM, .run, .deliver .SIGTERM] =
        some .SIGINT ∧
      (sigExec envStepsFail ⟨1⟩ (some ⟨3⟩)
          ([.run, .deliver .SIGINT, .deliver .SIGTERM, .run, .deliver .SIGTERM] ++
            [.run, .run, .deliver .SIGINT, .run, .run, .run, .run, .run, .deliver .SIGTERM,
             .run])).watcher = .done ∧
      (sigExec envStepsFail ⟨1⟩ (some ⟨3⟩)
          ([.run, .deliver .SIGINT, .deliver .SIGTERM, .run, .deliver .SIGTERM] ++
            [.run, .run, .deliver .SIGINT, .run, .run, .run, .run, .run, .deliver .SIGTERM,
             .run])).trace = signalWatcher envStepsFail ⟨1⟩ (some ⟨3⟩) .SIGINT :=
  ⟨rfl,
    (shutdown_runs_once envStepsFail ⟨1⟩ (some ⟨3⟩)
      [.run, .deliver .SIGINT, .deliver .SIGTERM, .run, .deliver .SIGTERM] .SIGINT rfl).2.2
      [.run, .run, .deliver .SIGINT, .run, .run, .run, .run, .run, .deliver .SIGTERM, .run]
      (by decide)⟩


/-- If `svr.ListenAndServe` is called, profiling setup did not fail and
    `auth.NewManager` succeeded. -/
theorem started_imp_ok (fl : Flags) (env : Env)
    (h : ∃ e ∈ (main fl env).trace, e.call.isListenAndServe = true) :
    (fl.cpuprofile = "" ∨ ∃ f, env.osCreate fl.cpuprofile = .ok f) ∧
      ∃ m, env.authNewManager "mockSuccess" = .ok m := by
  obtain ⟨e, hmem, hl⟩ := h
  rcases profile_cases fl env with ⟨hc, err, he⟩ | hok
  · rw [main_trace_fatal fl env err hc he] at hmem
    simp at hmem
    rcases hmem with h | h | h <;> subst h <;> simp [Call.isListenAndServe] at hl
  · refine ⟨hok, ?_⟩
    rw [main_trace_ok fl env hok, List.mem_append] at hmem
    rcases hmem with hmem | hmem
    · rw [List.append_assoc, List.append_assoc, List.mem_append] at hmem
      rcases hmem with hmem | hmem
      · simp at hmem; subst hmem; simp [Call.isListenAndServe] at hl
      · rw [← List.append_assoc] at hmem
        rw [startup_not_listenAndServe fl env e hmem] at hl
        cases hl
    · exact (primaryEvents_listenAndServe env _).1 ⟨e, hmem, hl⟩

/-- Stage of every call in the profiling segment. -/
theorem phase_profileEvents (fl : Flags) (env : Env) (e : Event) (h : e ∈ profileEvents fl env) :
    e.call.phase = 1 := by
  rcases mem_profileEvents fl env e h with h | ⟨_, h⟩ | ⟨_, h⟩ <;> rw [h] <;> rfl

/-- Stage of the calls that arm the watcher. -/
theorem phase_armEvents (e : Event) (h : e ∈ armEvents) : e.call.phase = 2 := by
  rcases mem_armEvents e h with h | h <;> rw [h] <;> rfl

/-- Stage of every call in the secondary-listener segment. -/
theorem phase_secondaryEvents (fl : Flags) (env : Env) (e : Event)
    (h : e ∈ secondaryEvents fl env) : e.call.phase = 3 := by
  rcases (mem_secondaryEvents fl env e).1 h with ⟨_, h⟩ | ⟨_, h⟩ | ⟨_, h⟩ <;> subst h <;> rfl

/-- A list whose calls all have the same stage is in stage order. -/
theorem pairwise_phase_const (l : List Event) (c : Nat) (h : ∀ e ∈ l, e.call.phase = c) :
    l.Pairwise (fun a b => a.call.phase ≤ b.call.phase) := by
  apply List.pairwise_of_forall_mem_list
  intro a ha b hb
  rw [h a ha, h b hb]

/-- C9: in every run of `main` that calls `svr.ListenAndServe`, the calls occur
    in stage order: profiling start, then arming the signal watcher
    (`signal.Notify` and the `go` statement of the closure), then the requests
    to start the secondary listeners, then `auth.NewManager`, then the blocking
    `svr.ListenAndServe`; and each of these is present: the profiler start when
    `cpuprofile` is set, both arming calls, the `go` statement of every
    configured secondary listener, and the successful `auth.NewManager` call. -/
theorem startup_order (fl : Flags) (env : Env)
    (hstart : ∃ e ∈ (main fl env).trace, e.call.isListenAndServe = true) :
    (main fl env).trace.Pairwise (fun a b => a.call.phase ≤ b.call.phase) ∧
      (fl.cpuprofile ≠ "" →
        ∃ f, (⟨.startCPUProfile f, env.startCPUProfile f⟩ : Event) ∈ (main fl env).trace) ∧
      (⟨.signalNotify [.SIGINT, .SIGTERM], none⟩ : Event) ∈ (main fl env).trace ∧
      (⟨.goSignalWatcher, none⟩ : Event) ∈ (main fl env).trace ∧
      (fl.wsAddr ≠ "" →
        (⟨.goListenAndServeWebSocket fl.wsAddr, none⟩ : Event) ∈ (main fl env).trace) ∧
      (fl.wssAddr ≠ "" ∧ fl.wssCertPath ≠ "" ∧ fl.wssKeyPath ≠ "" →
        (⟨.goListenAndServeWebSocketSecure fl.wssAddr fl.wssCertPath fl.wssKeyPath, none⟩ : Event)
          ∈ (main fl env).trace) ∧
      (⟨.authNewManager "mockSuccess", none⟩ : Event) ∈ (main fl env).trace := by
  obtain ⟨hok, m, hm⟩ := started_imp_ok fl env hstart
  rw [main_trace_ok fl env hok]
  have hprim : ∃ tail, primaryEvents env (env.serverNew (serverConfigOf fl)).1 =
      ⟨.authNewManager "mockSuccess", none⟩ :: tail ∧
      tail.Pairwise (fun a b => a.call.phase ≤ b.call.phase) ∧
      ∀ b ∈ tail, 5 ≤ b.call.phase := by
    unfold primaryEvents
    simp only [hm]
    split <;> simp [Call.phase]
  obtain ⟨tail, hp, hpw, hp5⟩ := hprim
  rw [hp]
  refine ⟨?_, ?_, ?_, ?_, ?_, ?_, ?_⟩
  · have hs : ∀ a ∈ [(⟨.serverNew (serverConfigOf fl),
        (env.serverNew (serverConfigOf fl)).2⟩ : Event)], a.call.phase = 0 := by
      intro a ha
      rw [List.mem_singleton] at ha
      subst ha
      rfl
    have ht : ∀ b ∈ (⟨.authNewManager "mockSuccess", none⟩ : Event) :: tail,
        4 ≤ b.call.phase := by
      intro b hb
      rw [List.mem_cons] at hb
      rcases hb with hb | hb
      · subst hb; exact Nat.le_refl _
      · have := hp5 b hb; omega
    refine List.pairwise_append.2 ⟨List.pairwise_append.2 ⟨List.pairwise_append.2
      ⟨List.pairwise_append.2 ⟨pairwise_phase_const _ 0 hs,
        pairwise_phase_const _ 1 (phase_profileEvents fl env), ?_⟩,
        pairwise_phase_const _ 2 phase_armEvents, ?_⟩,
        pairwise_phase_const _ 3 (phase_secondaryEvents fl env), ?_⟩, ?_, ?_⟩
    · intro a ha b _
      rw [hs a ha]
      exact Nat.zero_le _
    · intro a ha b hb
      rw [phase_armEvents b hb]
      rcases List.mem_append.1 ha with ha | ha
      · rw [hs a ha]; decide
      · rw [phase_profileEvents fl env a ha]; decide
    · intro a ha b hb
      rw [phase_secondaryEvents fl env b hb]
      rcases List.mem_append.1 ha with ha | ha
      · rcases List.mem_append.1 ha with ha | ha
        · rw [hs a ha]; decide
        · rw [phase_profileEvents fl env a ha]; decide
      · rw [phase_armEvents a ha]; decide
    · refine List.pairwise_cons.2 ⟨?_, hpw⟩
      intro b hb
      have := hp5 b hb
      show 4 ≤ b.call.phase
      omega
    · intro a ha b hb
      have h4 := ht b hb
      rcases List.mem_append.1 ha with ha | ha
      · rcases List.mem_append.1 ha with ha | ha
        · rcases List.mem_append.1 ha with ha | ha
          · rw [hs a ha]; exact Nat.zero_le _
          · rw [phase_profileEvents fl env a ha]; omega
        · rw [phase_armEvents a ha]; omega
      · rw [phase_secondaryEvents fl env a ha]; omega
  · intro hc
    rcases hok with h | ⟨f, hf⟩
    · exact absurd h hc
    · exact ⟨f, by simp [profileEvents, hc, hf]⟩
  · simp [armEvents]
  · simp [armEvents]
  · intro h
    simp [secondaryEvents, h]
  · intro h
    simp [secondaryEvents, h]
  · simp

/-- C9 at a full configuration: the stages of the ten calls of `main`. -/
theorem startup_order_witness :
    (∃ e ∈ (main flagsFull envOk).trace, e.call.isListenAndServe = true) ∧
      (main flagsFull envOk).trace.Pairwise (fun a b => a.call.phase ≤ b.call.phase) ∧
      (main flagsFull envOk).trace.map (fun e => e.call.phase) = [0, 1, 1, 2, 2, 3, 3, 3, 4, 5] :=
  ⟨by decide, (startup_order flagsFull envOk (by decide)).1, by decide⟩

/-- The goroutines of the secondary listeners make no reporting call. -/
theorem filter_isLog_spawned (env : Env) (l : List Event) :
    ((l.map (fun e => spawned env e.call)).flatten).filter (fun e => e.call.isLog) = [] := by
  induction l with
  | nil => rfl
  | cons e rest ih =>
    rw [List.map_cons, List.flatten_cons, List.filter_append, ih, List.append_nil]
    cases hc : e.call <;> simp [spawned, Call.isLog]

/-- C6 as stated fails at `-wsaddr=:8080` when the plaintext listener cannot
    bind: `listenAndServeWebSocket` returns an error inside its goroutine, the
    `go` statement drops it, and the run contains no `appLog.Errorf` or
    `log.Fatal` call at all. -/
theorem secondary_failure_not_reported :
    (⟨.listenAndServeWebSocket ":8080", some ⟨"bind: address already in use"⟩⟩ : Event) ∈
        programEvents flagsWs envStepsFail ∧
      ¬ ∃ e ∈ programEvents flagsWs envStepsFail, e.call.isLog = true := by
  decide

/-- C6, amended: the error a secondary listener returns is dropped by the `go`
    statement and reported nowhere, and it does not prevent the primary listener
    from starting. Whatever `listenAndServeWebSocket` and
    `listenAndServeWebSocketSecure` return, the run of `main` is the same, so
    `svr.ListenAndServe` is called or not, and with the same `Listener` value,
    as when they succeed, and the reporting calls of the whole program are the
    same too. -/
theorem secondary_outcome_discarded (fl : Flags) (env : Env)
    (ws : String → Option GoError) (wss : String → String → String → Option GoError) :
    main fl (withSecondary env ws wss) =
        main fl env ∧
      (main fl (withSecondary env ws wss)).trace.filter
          (fun e => e.call.isListenAndServe) =
        (main fl env).trace.filter (fun e => e.call.isListenAndServe) ∧
      (programEvents fl (withSecondary env ws wss)).filter
          (fun e => e.call.isLog) =
        (programEvents fl env).filter (fun e => e.call.isLog) := by
  have h : main fl (withSecondary env ws wss) = main fl env := rfl
  refine ⟨h, by rw [h], ?_⟩
  unfold programEvents
  rw [List.filter_append, List.filter_append, filter_isLog_spawned, filter_isLog_spawned, h]

end Surgemq
